import Mathlib

/-!
Shallow embedding of the lantern-lite relay: package s3config (configuration
fetch, certificate validation, jittered re-poll) and package proxy (fallback
registry, local relay handler, padding generation).
-/

/-- A parsed X.509 certificate, kept as an abstract handle; the actual PEM and
DER parsing lives in the Go standard library and is supplied to the fetch
logic as an environment function. -/
abbrev Cert := String

/-- Mirrors s3config.FallbackConfig: one fallback proxy endpoint as declared
in the fetched JSON document. The x509Cert field is nil until set by the
validation loop inside fetch. -/
structure FallbackConfig where
  ip : String
  port : String
  protocol : String
  authToken : String
  cert : String
  x509Cert : Option Cert
  deriving DecidableEq

/-- Mirrors s3config.S3Config: the configuration document fetched from S3. -/
structure S3Config where
  serialNo : Int
  controller : String
  minPoll : Int
  maxPoll : Int
  fallbacks : List FallbackConfig
  deriving DecidableEq

/-- The package-level poll bounds of s3config (vars minPoll and maxPoll). -/
structure FetchState where
  minPoll : Int
  maxPoll : Int
  deriving DecidableEq

/-- The declared initial values of the poll bounds: minPoll = 5, maxPoll = 15. -/
def initialFetchState : FetchState := { minPoll := 5, maxPoll := 15 }

/-- The certificate-validation loop inside s3config.fetch: parseCert is tried
on each fallback certificate in order; the first failure discards the whole
document (certFailure with break), otherwise every entry has its parsed
X509Cert recorded. -/
def validateFallbacks (parseCert : String → Option Cert) :
    List FallbackConfig → Option (List FallbackConfig)
  | [] => some []
  | fb :: rest =>
    match parseCert fb.cert with
    | none => none
    | some c =>
      match validateFallbacks parseCert rest with
      | none => none
      | some rest2 => some ({ fb with x509Cert := some c } :: rest2)

/-- Outcome of the HTTP GET, body read, status check and JSON decode at the
head of s3config.fetch, supplied as environment input to the embedding. -/
inductive FetchInput where
  | getError (msg : String)
  | readError (msg : String)
  | badStatus (code : Nat) (body : String)
  | parseError (msg : String)
  | parsed (config : S3Config)
  deriving DecidableEq

/-- Observable events of one execution of s3config.fetch. -/
inductive FetchEvent where
  | httpGet
  | publish (config : S3Config)
  | sleep (minutes : Int)
  | panicked (msg : String)
  deriving DecidableEq

/-- The publication stage of s3config.fetch: on a decoded document the poll
bounds are stored immediately (before certificate validation); the document
is then sent on ConfigUpdate only when every certificate parses. Any earlier
failure leaves the bounds untouched and publishes nothing. -/
def fetchPublish (parseCert : String → Option Cert) (input : FetchInput)
    (st : FetchState) : FetchState × Option S3Config :=
  match input with
  | .parsed config =>
    let st2 : FetchState := { minPoll := config.minPoll, maxPoll := config.maxPoll }
    match validateFallbacks parseCert config.fallbacks with
    | none => (st2, none)
    | some fbs => (st2, some { config with fallbacks := fbs })
  | _ => (st, none)

/-- The jitter computation at the tail of s3config.fetch: crypto/rand.Int is
called with bound maxPoll - minPoll and panics when that bound is not
positive; otherwise the drawn value r has minPoll added to it and the loop
sleeps for that many minutes. -/
def sleepInterval (st : FetchState) (r : Int) : Except String Int :=
  if st.maxPoll - st.minPoll ≤ 0 then
    Except.error "crypto/rand: argument to Int is <= 0"
  else
    Except.ok (r + st.minPoll)

/-- Embeds s3config.fetch: one HTTP GET, at most one publication on
ConfigUpdate, one jittered sleep, and then the function returns — its body
contains no loop, so the returned trace is the complete behaviour of the
goroutine started by init. Returns the new poll bounds, the published
document (if any) and the event trace. -/
def fetch (parseCert : String → Option Cert) (input : FetchInput)
    (st : FetchState) (r : Int) : FetchState × Option S3Config × List FetchEvent :=
  let res := fetchPublish parseCert input st
  let tail :=
    match sleepInterval res.1 r with
    | .error m => [FetchEvent.panicked m]
    | .ok i => [FetchEvent.sleep i]
  (res.1, res.2, FetchEvent.httpGet :: ((res.2.map FetchEvent.publish).toList ++ tail))

/-- Mirrors the tls.Config built in proxy.doUpdateFallbacks: a root pool
holding exactly the one parsed certificate of the entry, with
InsecureSkipVerify set. -/
structure TlsConfig where
  rootCAs : List Cert
  insecureSkipVerify : Bool
  deriving DecidableEq

/-- Mirrors proxy.Fallback: a fallback configuration together with the tls
configuration used to communicate with it. -/
structure Fallback where
  fallbackConfig : FallbackConfig
  tlsConfig : TlsConfig
  deriving DecidableEq

/-- Mirrors the body of proxy.doUpdateFallbacks after it receives a config on
ConfigUpdate: build the new fallbacks list, one entry per FallbackConfig,
each trusting exactly that entry certificate. -/
def doUpdateFallbacks (config : S3Config) : List Fallback :=
  config.fallbacks.map (fun fc =>
    { fallbackConfig := fc,
      tlsConfig := { rootCAs := fc.x509Cert.toList, insecureSkipVerify := true } })

/-- The blocking hand-off from s3config.fetch to proxy.doUpdateFallbacks: the
registry list changes only when a document was actually published on the
ConfigUpdate channel. -/
def fetchAndApply (parseCert : String → Option Cert) (input : FetchInput)
    (st : FetchState) (reg : List Fallback) (r : Int) : FetchState × List Fallback :=
  match fetch parseCert input st r with
  | (st2, some config, _) => (st2, doUpdateFallbacks config)
  | (st2, none, _) => (st2, reg)

/-- Result of proxy.getFallback: either the selected fallback or the
log.Fatalf process termination with its message. -/
inductive SelectResult where
  | fatal (msg : String)
  | ok (fallback : Fallback)
  deriving DecidableEq

/-- Mirrors proxy.getFallback: log.Fatalf when the fallbacks list is empty,
otherwise the first entry of the list. -/
def getFallback (fallbacks : List Fallback) : SelectResult :=
  match fallbacks with
  | [] => SelectResult.fatal "No fallback configured!"
  | fb :: _ => SelectResult.ok fb

/-- An HTTP request as relevant to the relay: method, URL, headers, body. -/
structure Request where
  method : String
  url : String
  header : List (String × String)
  body : List Nat
  deriving DecidableEq

/-- Mirrors http.Header.Set: replace any existing values of the key with the
single given value. -/
def setHeader (hs : List (String × String)) (k v : String) : List (String × String) :=
  hs.filter (fun p => p.1 != k) ++ [(k, v)]

/-- Header lookup: the first value stored for the key. -/
def getHeader (hs : List (String × String)) (k : String) : Option String :=
  (hs.find? (fun p => p.1 == k)).map Prod.snd

/-- The header name constant x_lantern_auth_token of package proxy. -/
def x_lantern_auth_token : String := "X-LANTERN-AUTH-TOKEN"

/-- The header name constant x_random_length_header of package proxy. -/
def x_random_length_header : String := "X_LANTERN-RANDOM-LENGTH-HEADER"

/-- Mirrors proxy.respondBadGateway: a 502 response whose body names the
request URL and the failure message. -/
def respondBadGateway (req : Request) (msg : String) : Nat × String :=
  (502, "Bad Gateway: " ++ req.url ++ " - " ++ msg)

/-- Everything externally visible from one run of proxy.handleLocalRequest.
response is what the client actually receives on its connection;
droppedResponse is a 502 that respondBadGateway writes to a ResponseWriter
that was already hijacked — net/http makes WriteHeader a no-op and Write
return ErrHijacked there, so such a response never reaches the client. -/
structure SessionOutcome where
  response : Option (Nat × String)
  droppedResponse : Option (Nat × String)
  upstreamWrites : List Request
  piped : Bool
  fatalExit : Option String
  deriving DecidableEq

/-- Mirrors proxy.handleLocalRequest: select a fallback, dial it over TLS,
hijack the client connection, generate the padding token, inject the two
headers into the original request, write it upstream (WriteProxy) and pipe.
dialErr, hijackErr and randStr are the environment outcomes of tls.Dial,
Hijack and randomLengthString respectively. The dial and hijack failure
branches respond before any successful Hijack, so their 502 is delivered;
the randomLengthString failure branch calls respondBadGateway after Hijack
has succeeded, so its 502 is written to the dead ResponseWriter and is
recorded as droppedResponse, not delivered. -/
def handleLocalRequest (fallbacks : List Fallback) (req : Request)
    (dialErr : Option String) (hijackErr : Option String)
    (randStr : Except String String) : SessionOutcome :=
  match getFallback fallbacks with
  | .fatal m =>
    { response := none, droppedResponse := none,
      upstreamWrites := [], piped := false, fatalExit := some m }
  | .ok fallback =>
    match dialErr with
    | some e =>
      { response := some (respondBadGateway req ("Unable to open socket to upstream proxy: " ++ e)),
        droppedResponse := none,
        upstreamWrites := [], piped := false, fatalExit := none }
    | none =>
      match hijackErr with
      | some e =>
        { response := some (respondBadGateway req ("Unable to access underlying connection from client: " ++ e)),
          droppedResponse := none,
          upstreamWrites := [], piped := false, fatalExit := none }
      | none =>
        match randStr with
        | .error e =>
          { response := none,
            droppedResponse := some (respondBadGateway req ("Unable to generate random length header: " ++ e)),
            upstreamWrites := [], piped := false, fatalExit := none }
        | .ok str =>
          let req2 : Request :=
            { req with header := (setHeader (setHeader req.header x_random_length_header str)
                x_lantern_auth_token fallback.fallbackConfig.authToken) }
          { response := none, droppedResponse := none,
            upstreamWrites := [req2], piped := true, fatalExit := none }

/-- The StdEncoding alphabet of encoding/base64. -/
def b64Alphabet : List Char :=
  "ABCDEFGHIJKLMNOPQRSTUVWXYZabcdefghijklmnopqrstuvwxyz0123456789+/".toList

/-- Character for a six-bit group; the default is never reached for values
below 64. -/
def sextetChar (n : Nat) : Char := b64Alphabet.getD n '='

/-- Position of a character in a character list. -/
def findIdx (c : Char) : List Char → Option Nat
  | [] => none
  | d :: rest => if c = d then some 0 else (findIdx c rest).map (· + 1)

/-- Decode table of StdEncoding: the six-bit value of an alphabet character;
none for any character outside the alphabet, in particular the padding. -/
def sextetVal (c : Char) : Option Nat := findIdx c b64Alphabet

/-- Embeds base64.StdEncoding.EncodeToString on a byte list (bytes as Nat
below 256): three bytes become four alphabet characters; a final group of one
or two bytes is padded with = characters. -/
def b64Encode : List Nat → List Char
  | b0 :: b1 :: b2 :: rest =>
    sextetChar (b0 / 4) :: sextetChar ((b0 % 4) * 16 + b1 / 16) ::
      sextetChar ((b1 % 16) * 4 + b2 / 64) :: sextetChar (b2 % 64) :: b64Encode rest
  | [b0, b1] =>
    [sextetChar (b0 / 4), sextetChar ((b0 % 4) * 16 + b1 / 16), sextetChar ((b1 % 16) * 4), '=']
  | [b0] =>
    [sextetChar (b0 / 4), sextetChar ((b0 % 4) * 16), '=', '=']
  | [] => []

/-- Embeds base64.StdEncoding decode on newline-free input: groups of four
characters are decoded through the alphabet table, padding is accepted only
at the very end, and any other shape is an error (none). -/
def b64Decode : List Char → Option (List Nat)
  | [] => some []
  | c0 :: c1 :: c2 :: c3 :: rest =>
    (sextetVal c0).bind (fun s0 =>
      (sextetVal c1).bind (fun s1 =>
        if c2 = '=' then
          if c3 = '=' ∧ rest = [] then some [s0 * 4 + s1 / 16] else none
        else
          (sextetVal c2).bind (fun s2 =>
            if c3 = '=' then
              if rest = [] then some [s0 * 4 + s1 / 16, (s1 % 16) * 16 + s2 / 4] else none
            else
              (sextetVal c3).bind (fun s3 =>
                (b64Decode rest).bind (fun tail =>
                  some ((s0 * 4 + s1 / 16) :: ((s1 % 16) * 16 + s2 / 4) ::
                    ((s2 % 4) * 64 + s3) :: tail))))))
  | _ => none

/-- Models crypto/rand.Int for a positive bound: a uniformly drawn value in
the interval from 0 inclusive to the bound exclusive, here the entropy
reduced modulo the bound. -/
def randInt (entropy : Nat) (bound : Nat) : Nat := entropy % bound

/-- Mirrors proxy.randomLengthString given the drawn random bytes:
base64-encode them (enc.EncodeToString). The byte count is drawn separately
as randInt entropy 100. -/
def randomLengthString (bytes : List Nat) : String := String.mk (b64Encode bytes)

/-- A certificate-parse environment that rejects every certificate. -/
def rejectAllCerts : String → Option Cert := fun _ => none

/-- A certificate-parse environment that accepts every certificate. -/
def acceptAllCerts : String → Option Cert := fun s => some s

/-- A certificate-parse environment that accepts only the text CERT1. -/
def onlyCert1 : String → Option Cert := fun s => if s = "CERT1" then some s else none

/-- A concrete fallback declaration with a parsable certificate text. -/
def fbSpec1 : FallbackConfig :=
  { ip := "1.2.3.4", port := "443", protocol := "tls", authToken := "tok1",
    cert := "CERT1", x509Cert := none }

/-- A second concrete fallback declaration, whose certificate text CERT2 is
rejected by onlyCert1. -/
def fbSpec2 : FallbackConfig :=
  { ip := "5.6.7.8", port := "8443", protocol := "tls", authToken := "tok2",
    cert := "CERT2", x509Cert := none }

/-- A concrete document with two fallbacks and sane poll bounds. -/
def cfgTwo : S3Config :=
  { serialNo := 1, controller := "ctrl", minPoll := 2, maxPoll := 9,
    fallbacks := [fbSpec1, fbSpec2] }

/-- A concrete document with an empty fallbacks list. -/
def cfgEmpty : S3Config :=
  { serialNo := 2, controller := "ctrl", minPoll := 2, maxPoll := 9,
    fallbacks := [] }

/-- A concrete document whose poll bounds differ from the initial state and
whose only fallback certificate is rejected by rejectAllCerts. -/
def cfgBadCert : S3Config :=
  { serialNo := 3, controller := "ctrl", minPoll := 1, maxPoll := 2,
    fallbacks := [fbSpec1] }

/-- A concrete document with inverted poll bounds (minpoll above maxpoll). -/
def cfgInverted : S3Config :=
  { serialNo := 4, controller := "ctrl", minPoll := 10, maxPoll := 5,
    fallbacks := [fbSpec1] }

/-- A concrete request as a browser would send it to the local proxy. -/
def reqSample : Request :=
  { method := "GET", url := "http://example.com/", header := [("Accept", "*/*")],
    body := [72, 105] }

/-- A concrete registry entry derived from fbSpec1. -/
def fbSample : Fallback :=
  { fallbackConfig := fbSpec1,
    tlsConfig := { rootCAs := ["CERT1"], insecureSkipVerify := true } }

/-- The decode table inverts the encode table on every six-bit value. -/
theorem sextetVal_sextetChar : ∀ n : Nat, n < 64 → sextetVal (sextetChar n) = some n := by
  decide

/-- No six-bit value encodes to the padding character. -/
theorem sextetChar_ne_pad : ∀ n : Nat, n < 64 → sextetChar n ≠ '=' := by
  decide

/-- StdEncoding decode inverts StdEncoding encode on every byte list. -/
theorem b64_roundtrip : ∀ b : List Nat, (∀ x ∈ b, x < 256) → b64Decode (b64Encode b) = some b
  | [], _ => rfl
  | [b0], h => by
    have h0 : b0 < 256 := h b0 (by simp)
    have v0 := sextetVal_sextetChar (b0 / 4) (by omega)
    have v1 := sextetVal_sextetChar ((b0 % 4) * 16) (by omega)
    simp only [b64Encode, b64Decode, v0, v1, Option.some_bind, if_pos rfl, and_self, if_true,
      Option.some.injEq, List.cons.injEq, and_true]
    omega
  | [b0, b1], h => by
    have h0 : b0 < 256 := h b0 (by simp)
    have h1 : b1 < 256 := h b1 (by simp)
    have v0 := sextetVal_sextetChar (b0 / 4) (by omega)
    have v1 := sextetVal_sextetChar ((b0 % 4) * 16 + b1 / 16) (by omega)
    have v2 := sextetVal_sextetChar ((b1 % 16) * 4) (by omega)
    have n2 := sextetChar_ne_pad ((b1 % 16) * 4) (by omega)
    simp only [b64Encode, b64Decode, v0, v1, v2, Option.some_bind, if_neg n2, if_pos rfl,
      if_true, Option.some.injEq, List.cons.injEq, and_true]
    constructor
    · omega
    · omega
  | b0 :: b1 :: b2 :: rest, h => by
    have h0 : b0 < 256 := h b0 (by simp)
    have h1 : b1 < 256 := h b1 (by simp)
    have h2 : b2 < 256 := h b2 (by simp)
    have ih : b64Decode (b64Encode rest) = some rest :=
      b64_roundtrip rest (fun x hx => h x (by simp [hx]))
    have v0 := sextetVal_sextetChar (b0 / 4) (by omega)
    have v1 := sextetVal_sextetChar ((b0 % 4) * 16 + b1 / 16) (by omega)
    have v2 := sextetVal_sextetChar ((b1 % 16) * 4 + b2 / 64) (by omega)
    have v3 := sextetVal_sextetChar (b2 % 64) (by omega)
    have n2 := sextetChar_ne_pad ((b1 % 16) * 4 + b2 / 64) (by omega)
    have n3 := sextetChar_ne_pad (b2 % 64) (by omega)
    simp only [b64Encode, b64Decode, v0, v1, v2, v3, Option.some_bind, if_neg n2, if_neg n3,
      ih, Option.some.injEq, List.cons.injEq, and_true]
    refine ⟨by omega, by omega, by omega⟩

/-- Looking up the key just set returns the value just set. -/
theorem getHeader_setHeader_same (hs : List (String × String)) (k v : String) :
    getHeader (setHeader hs k v) k = some v := by
  induction hs with
  | nil => simp [setHeader, getHeader]
  | cons a t ih =>
    by_cases h : a.1 = k
    · simp [setHeader, getHeader, h]
    · simp [setHeader, getHeader, h]

/-- Setting one key leaves every other key unchanged. -/
theorem getHeader_setHeader_ne (hs : List (String × String)) (k k2 v : String)
    (hne : k2 ≠ k) : getHeader (setHeader hs k v) k2 = getHeader hs k2 := by
  have hne2 : ¬(k = k2) := fun hh => hne hh.symm
  induction hs with
  | nil => simp [setHeader, getHeader, hne2]
  | cons a t ih =>
    by_cases h : a.1 = k
    · by_cases h3 : a.1 = k2
      · exact absurd (h.symm.trans h3) hne2
      · simp only [setHeader, getHeader] at ih ⊢
        simpa [h, h3, hne2] using ih
    · by_cases h3 : a.1 = k2
      · simp [setHeader, getHeader, h, h3, hne2]
        exact ⟨a.1, Or.inl ⟨hne, rfl⟩⟩
      · simp only [setHeader, getHeader] at ih ⊢
        simpa [h, h3, hne2] using ih

/-- A certificate failure anywhere in the list makes the validation loop
discard the whole list. -/
theorem validateFallbacks_none (parseCert : String → Option Cert)
    (l : List FallbackConfig) (fb : FallbackConfig) (hmem : fb ∈ l)
    (hbad : parseCert fb.cert = none) : validateFallbacks parseCert l = none := by
  induction l with
  | nil => cases hmem
  | cons a t ih =>
    cases hmem with
    | head => simp [validateFallbacks, hbad]
    | tail _ hmem2 =>
      have ht := ih hmem2
      cases hpc : parseCert a.cert with
      | none => simp [validateFallbacks, hpc]
      | some c => simp [validateFallbacks, hpc, ht]

/-- C1: for every applied RemoteConfig with at least one fallback, a
subsequent select returns the first fallback of that config: its host, port
and authToken equal those of the document first FallbackSpec, regardless of
how many fallbacks the document lists. -/
theorem c1_apply_select_first (config : S3Config) (f : FallbackConfig)
    (rest : List FallbackConfig) (h : config.fallbacks = f :: rest) :
    ∃ fb, getFallback (doUpdateFallbacks config) = SelectResult.ok fb ∧
      fb.fallbackConfig.ip = f.ip ∧ fb.fallbackConfig.port = f.port ∧
      fb.fallbackConfig.authToken = f.authToken := by
  refine ⟨{ fallbackConfig := f,
            tlsConfig := { rootCAs := f.x509Cert.toList, insecureSkipVerify := true } },
    ?_, rfl, rfl, rfl⟩
  simp [doUpdateFallbacks, h, getFallback]

/-- Witness for C1 at a concrete two-fallback document. -/
theorem c1_witness :
    cfgTwo.fallbacks = fbSpec1 :: [fbSpec2] ∧
    ∃ fb, getFallback (doUpdateFallbacks cfgTwo) = SelectResult.ok fb ∧
      fb.fallbackConfig.ip = fbSpec1.ip ∧ fb.fallbackConfig.port = fbSpec1.port ∧
      fb.fallbackConfig.authToken = fbSpec1.authToken :=
  ⟨rfl, c1_apply_select_first cfgTwo fbSpec1 [fbSpec2] rfl⟩

/-- C9: when select is called while the fallback set is empty (no apply ever
occurred, or apply was called with an empty fallback list), the process
terminates fatally with a clear diagnostic message rather than panicking on
an out-of-range index access. -/
theorem c9_empty_select_fatal :
    getFallback [] = SelectResult.fatal "No fallback configured!" ∧
    ∀ config : S3Config, config.fallbacks = [] →
      getFallback (doUpdateFallbacks config) = SelectResult.fatal "No fallback configured!" := by
  refine ⟨rfl, ?_⟩
  intro config h
  simp [doUpdateFallbacks, h, getFallback]

/-- Witness for C9 at a concrete empty document. -/
theorem c9_witness :
    cfgEmpty.fallbacks = [] ∧
    getFallback (doUpdateFallbacks cfgEmpty) = SelectResult.fatal "No fallback configured!" :=
  ⟨rfl, c9_empty_select_fatal.2 cfgEmpty rfl⟩

/-- C7: for every pair of remembered poll bounds with minPoll below maxPoll
and every value the random source can return, the computed sleep interval
lies in the half-open range from minPoll to maxPoll minutes. -/
theorem c7_interval_in_bounds (st : FetchState) (r : Int)
    (h1 : st.minPoll < st.maxPoll) (h2 : 0 ≤ r) (h3 : r < st.maxPoll - st.minPoll) :
    sleepInterval st r = Except.ok (r + st.minPoll) ∧
    st.minPoll ≤ r + st.minPoll ∧ r + st.minPoll < st.maxPoll := by
  refine ⟨?_, by omega, by omega⟩
  unfold sleepInterval
  rw [if_neg (by omega)]

/-- Witness for C7 at the initial bounds and a concrete draw. -/
theorem c7_witness :
    (initialFetchState.minPoll < initialFetchState.maxPoll ∧ (0 : Int) ≤ 3 ∧
      (3 : Int) < initialFetchState.maxPoll - initialFetchState.minPoll) ∧
    (sleepInterval initialFetchState 3 = Except.ok (3 + initialFetchState.minPoll) ∧
      initialFetchState.minPoll ≤ 3 + initialFetchState.minPoll ∧
      3 + initialFetchState.minPoll < initialFetchState.maxPoll) :=
  ⟨⟨by decide, by decide, by decide⟩,
    c7_interval_in_bounds initialFetchState 3 (by decide) (by decide) (by decide)⟩

/-- C5: for every client request forwarded upstream, the request written to
the upstream TLS connection is the original request with exactly two headers
injected — the auth header carrying the selected fallback authToken and the
random-length padding header carrying the generated token — while the
original method, URI and body are unchanged. -/
theorem c5_forward_request_headers (fb : Fallback) (rest : List Fallback)
    (req : Request) (s : String) :
    ∃ req2,
      (handleLocalRequest (fb :: rest) req none none (Except.ok s)).upstreamWrites = [req2] ∧
      req2.method = req.method ∧ req2.url = req.url ∧ req2.body = req.body ∧
      getHeader req2.header x_lantern_auth_token = some fb.fallbackConfig.authToken ∧
      getHeader req2.header x_random_length_header = some s ∧
      req2.header = setHeader (setHeader req.header x_random_length_header s)
        x_lantern_auth_token fb.fallbackConfig.authToken := by
  refine ⟨_, rfl, rfl, rfl, rfl, ?_, ?_, rfl⟩
  · exact getHeader_setHeader_same _ _ _
  · rw [getHeader_setHeader_ne _ _ _ _ (by decide)]
    exact getHeader_setHeader_same _ _ _

/-- C3 counterexample: a session that fails at fallback selection (empty
fallback set) does not produce any 502 response at all — the process is
fatally terminated instead, refuting the claim that every pre-Piping failure
yields a Bad Gateway response to the client. -/
theorem c3_counterexample :
    (handleLocalRequest [] reqSample none none (Except.ok "pad")).response = none ∧
    (handleLocalRequest [] reqSample none none (Except.ok "pad")).fatalExit =
      some "No fallback configured!" ∧
    (handleLocalRequest [] reqSample none none (Except.ok "pad")).upstreamWrites = [] :=
  ⟨rfl, rfl, rfl⟩

/-- C3 amended: every session that fails before Piping sends no traffic to
the upstream fallback; a failure at TLS dial or at hijack yields a
client-visible 502 Bad Gateway whose body names the request URL and a
human-readable reason; a failure at padding generation attempts the same
502 but writes it to the already-hijacked connection, so it never reaches
the client; a failure at fallback selection terminates the process fatally
with no response at all. -/
theorem c3_failed_before_piping (fb : Fallback) (rest : List Fallback) (req : Request)
    (dialErr hijackErr : Option String) (randStr : Except String String)
    (e1 e2 e3 : String) :
    ((handleLocalRequest [] req dialErr hijackErr randStr).fatalExit =
        some "No fallback configured!" ∧
      (handleLocalRequest [] req dialErr hijackErr randStr).response = none ∧
      (handleLocalRequest [] req dialErr hijackErr randStr).upstreamWrites = []) ∧
    ((handleLocalRequest (fb :: rest) req (some e1) hijackErr randStr).response =
        some (502, "Bad Gateway: " ++ req.url ++ " - " ++
          ("Unable to open socket to upstream proxy: " ++ e1)) ∧
      (handleLocalRequest (fb :: rest) req (some e1) hijackErr randStr).upstreamWrites = [] ∧
      (handleLocalRequest (fb :: rest) req (some e1) hijackErr randStr).fatalExit = none) ∧
    ((handleLocalRequest (fb :: rest) req none (some e2) randStr).response =
        some (502, "Bad Gateway: " ++ req.url ++ " - " ++
          ("Unable to access underlying connection from client: " ++ e2)) ∧
      (handleLocalRequest (fb :: rest) req none (some e2) randStr).upstreamWrites = [] ∧
      (handleLocalRequest (fb :: rest) req none (some e2) randStr).fatalExit = none) ∧
    ((handleLocalRequest (fb :: rest) req none none (Except.error e3)).response = none ∧
      (handleLocalRequest (fb :: rest) req none none (Except.error e3)).droppedResponse =
        some (502, "Bad Gateway: " ++ req.url ++ " - " ++
          ("Unable to generate random length header: " ++ e3)) ∧
      (handleLocalRequest (fb :: rest) req none none (Except.error e3)).upstreamWrites = [] ∧
      (handleLocalRequest (fb :: rest) req none none (Except.error e3)).fatalExit = none) :=
  ⟨⟨rfl, rfl, rfl⟩, ⟨rfl, rfl, rfl⟩, ⟨rfl, rfl, rfl⟩, ⟨rfl, rfl, rfl, rfl⟩⟩

/-- C2: for every fetched document in which at least one FallbackSpec
certificate fails to parse, the document is never published on ConfigUpdate
(so apply is not called with it) and the previously-applied fallback set is
unchanged — even when other FallbackSpecs in the same document are
well-formed. -/
theorem c2_bad_cert_rejected (parseCert : String → Option Cert) (st : FetchState)
    (reg : List Fallback) (r : Int) (config : S3Config) (fb : FallbackConfig)
    (hmem : fb ∈ config.fallbacks) (hbad : parseCert fb.cert = none) :
    (fetch parseCert (FetchInput.parsed config) st r).2.1 = none ∧
    (fetchAndApply parseCert (FetchInput.parsed config) st reg r).2 = reg := by
  have hv := validateFallbacks_none parseCert config.fallbacks fb hmem hbad
  constructor
  · simp [fetch, fetchPublish, hv]
  · simp [fetchAndApply, fetch, fetchPublish, hv]

/-- Witness for C2 at a concrete mixed document: the first certificate
parses, the second does not, and the registry keeps its previous entry. -/
theorem c2_witness :
    fbSpec2 ∈ cfgTwo.fallbacks ∧ onlyCert1 fbSpec2.cert = none ∧
    ((fetch onlyCert1 (FetchInput.parsed cfgTwo) initialFetchState 0).2.1 = none ∧
      (fetchAndApply onlyCert1 (FetchInput.parsed cfgTwo) initialFetchState [fbSample] 0).2 =
        [fbSample]) :=
  ⟨by decide, by decide,
    c2_bad_cert_rejected onlyCert1 initialFetchState [fbSample] 0 cfgTwo fbSpec2
      (by decide) (by decide)⟩

/-- C8 counterexample: a concrete document whose only certificate fails to
parse is rejected (nothing is published), yet the remembered poll bounds are
still overwritten with the document values — refuting the claim that the
bounds remain unchanged when a certificate fails. -/
theorem c8_counterexample :
    (fetch rejectAllCerts (FetchInput.parsed cfgBadCert) initialFetchState 0).2.1 = none ∧
    (fetch rejectAllCerts (FetchInput.parsed cfgBadCert) initialFetchState 0).1 =
      { minPoll := 1, maxPoll := 2 } ∧
    initialFetchState = { minPoll := 5, maxPoll := 15 } := by
  refine ⟨?_, ?_, rfl⟩ <;> decide

/-- C8 amended: the remembered poll bounds are overwritten with the document
values whenever the document decodes successfully, before certificate
validation — a certificate failure only skips publication; on a transport,
status or decode failure the bounds are unchanged. -/
theorem c8_bounds_updated_on_parse (parseCert : String → Option Cert)
    (input : FetchInput) (st : FetchState) (r : Int) :
    (fetch parseCert input st r).1 =
      (match input with
        | FetchInput.parsed config => { minPoll := config.minPoll, maxPoll := config.maxPoll }
        | _ => st) := by
  cases input with
  | parsed config =>
    cases hv : validateFallbacks parseCert config.fallbacks <;> simp [fetch, fetchPublish, hv]
  | getError m => rfl
  | readError m => rfl
  | badStatus c b => rfl
  | parseError m => rfl

/-- C10: the code never checks the documented invariant that minPoll is below
maxPoll: a document that decodes with minpoll at or above maxpoll has its
values stored as the remembered bounds, and the subsequent interval
computation calls crypto/rand.Int with a non-positive bound, which panics
instead of producing a valid sleep interval. -/
theorem c10_nonpositive_bound_panics (parseCert : String → Option Cert)
    (st : FetchState) (r : Int) (config : S3Config)
    (h : config.maxPoll ≤ config.minPoll) :
    (fetch parseCert (FetchInput.parsed config) st r).1 =
      { minPoll := config.minPoll, maxPoll := config.maxPoll } ∧
    FetchEvent.panicked "crypto/rand: argument to Int is <= 0" ∈
      (fetch parseCert (FetchInput.parsed config) st r).2.2 := by
  have hsl : sleepInterval { minPoll := config.minPoll, maxPoll := config.maxPoll } r =
      Except.error "crypto/rand: argument to Int is <= 0" := by
    unfold sleepInterval
    rw [if_pos (by simp; omega)]
  constructor
  · cases hv : validateFallbacks parseCert config.fallbacks <;> simp [fetch, fetchPublish, hv]
  · cases hv : validateFallbacks parseCert config.fallbacks <;>
      simp [fetch, fetchPublish, hv, hsl]

/-- Witness for C10 at a concrete inverted document. -/
theorem c10_witness :
    cfgInverted.maxPoll ≤ cfgInverted.minPoll ∧
    ((fetch acceptAllCerts (FetchInput.parsed cfgInverted) initialFetchState 0).1 =
        { minPoll := cfgInverted.minPoll, maxPoll := cfgInverted.maxPoll } ∧
      FetchEvent.panicked "crypto/rand: argument to Int is <= 0" ∈
        (fetch acceptAllCerts (FetchInput.parsed cfgInverted) initialFetchState 0).2.2) :=
  ⟨by decide,
    c10_nonpositive_bound_panics acceptAllCerts initialFetchState 0 cfgInverted (by decide)⟩

/-- C4: contrary to the claim that the poller repeats forever, every
execution of fetch issues exactly one HTTP GET: the embedded trace of the
whole function body — which is started once by init and contains no loop —
counts a single GET before the function returns. -/
theorem c4_fetch_single_iteration (parseCert : String → Option Cert)
    (input : FetchInput) (st : FetchState) (r : Int) :
    ((fetch parseCert input st r).2.2).count FetchEvent.httpGet = 1 := by
  rcases hfp : fetchPublish parseCert input st with ⟨st2, pub⟩
  cases pub <;> cases hsl : sleepInterval st2 r <;>
    simp [fetch, hfp, hsl, List.count_cons, List.count_append, List.count_nil, beq_iff_eq]

/-- C6: for every successfully generated padding token, the drawn byte length
lies below 100, base64-decoding the token succeeds, and the decoded byte
length equals the drawn length. -/
theorem c6_padding_roundtrip (entropy : Nat) (bytes : List Nat)
    (hlen : bytes.length = randInt entropy 100) (hb : ∀ x ∈ bytes, x < 256) :
    bytes.length < 100 ∧
    b64Decode (randomLengthString bytes).data = some bytes ∧
    ∃ decoded, b64Decode (randomLengthString bytes).data = some decoded ∧
      decoded.length = randInt entropy 100 := by
  have hrt := b64_roundtrip bytes hb
  have hdata : (randomLengthString bytes).data = b64Encode bytes := rfl
  refine ⟨?_, ?_, bytes, ?_, hlen⟩
  · rw [hlen]
    simp only [randInt]
    omega
  · rw [hdata]
    exact hrt
  · rw [hdata]
    exact hrt

/-- Witness for C6 at a concrete drawn length and concrete random bytes. -/
theorem c6_witness :
    ([10, 200, 255] : List Nat).length = randInt 3 100 ∧
    (∀ x ∈ ([10, 200, 255] : List Nat), x < 256) ∧
    (([10, 200, 255] : List Nat).length < 100 ∧
      b64Decode (randomLengthString [10, 200, 255]).data = some [10, 200, 255] ∧
      ∃ decoded, b64Decode (randomLengthString [10, 200, 255]).data = some decoded ∧
        decoded.length = randInt 3 100) :=
  ⟨by decide, by decide, c6_padding_roundtrip 3 [10, 200, 255] (by decide) (by decide)⟩
